/-
Verification of DashProtected (src/DashProtected.py): a thin authentication
wrapper around Dash. Python runtime values are shallowly embedded as `PyVal`;
the authentication backend is an oracle structure whose calls are recorded in
an explicit `AuthCall` trace; each handler of the `DashProtected` class is
translated into a pure Lean function returning its Python result together with
the list of backend calls it performed.
-/
import Mathlib

/-- Shallow embedding of the Python runtime values that flow through the
DashProtected callbacks: `None`, strings, integers, the `dash.no_update`
sentinel, opaque objects (layouts built by view builders, identified by a
tag), tuples and lists. -/
inductive PyVal where
  | none
  | str (s : String)
  | int (n : Int)
  | noUpdate
  | obj (id : String)
  | tuple (xs : List PyVal)
  | pylist (xs : List PyVal)

mutual

/-- Structural decidable equality on `PyVal`, modelling Python `==` on these
values (`None`, `no_update` and opaque objects compare by identity, which the
constructor tags capture). -/
def PyVal.decEq : (a b : PyVal) → Decidable (a = b)
  | .none, .none => isTrue rfl
  | .noUpdate, .noUpdate => isTrue rfl
  | .str a, .str b =>
    match String.decEq a b with
    | isTrue h => isTrue (by rw [h])
    | isFalse h => isFalse (by intro hh; injection hh; contradiction)
  | .int a, .int b =>
    match Int.instDecidableEq a b with
    | isTrue h => isTrue (by rw [h])
    | isFalse h => isFalse (by intro hh; injection hh; contradiction)
  | .obj a, .obj b =>
    match String.decEq a b with
    | isTrue h => isTrue (by rw [h])
    | isFalse h => isFalse (by intro hh; injection hh; contradiction)
  | .tuple xs, .tuple ys =>
    match PyVal.decEqList xs ys with
    | isTrue h => isTrue (by rw [h])
    | isFalse h => isFalse (by intro hh; injection hh; contradiction)
  | .pylist xs, .pylist ys =>
    match PyVal.decEqList xs ys with
    | isTrue h => isTrue (by rw [h])
    | isFalse h => isFalse (by intro hh; injection hh; contradiction)
  | .none, .str _ | .none, .int _ | .none, .noUpdate
  | .none, .obj _ | .none, .tuple _ | .none, .pylist _ => isFalse (fun h => nomatch h)
  | .str _, .none | .str _, .int _ | .str _, .noUpdate
  | .str _, .obj _ | .str _, .tuple _ | .str _, .pylist _ => isFalse (fun h => nomatch h)
  | .int _, .none | .int _, .str _ | .int _, .noUpdate
  | .int _, .obj _ | .int _, .tuple _ | .int _, .pylist _ => isFalse (fun h => nomatch h)
  | .noUpdate, .none | .noUpdate, .str _ | .noUpdate, .int _
  | .noUpdate, .obj _ | .noUpdate, .tuple _ | .noUpdate, .pylist _ => isFalse (fun h => nomatch h)
  | .obj _, .none | .obj _, .str _ | .obj _, .int _
  | .obj _, .noUpdate | .obj _, .tuple _ | .obj _, .pylist _ => isFalse (fun h => nomatch h)
  | .tuple _, .none | .tuple _, .str _ | .tuple _, .int _
  | .tuple _, .noUpdate | .tuple _, .obj _ | .tuple _, .pylist _ => isFalse (fun h => nomatch h)
  | .pylist _, .none | .pylist _, .str _ | .pylist _, .int _
  | .pylist _, .noUpdate | .pylist _, .obj _ | .pylist _, .tuple _ => isFalse (fun h => nomatch h)

/-- Componentwise decidable equality on lists of `PyVal`. -/
def PyVal.decEqList : (xs ys : List PyVal) → Decidable (xs = ys)
  | [], [] => isTrue rfl
  | [], _ :: _ => isFalse (fun h => nomatch h)
  | _ :: _, [] => isFalse (fun h => nomatch h)
  | x :: xs, y :: ys =>
    match PyVal.decEq x y, PyVal.decEqList xs ys with
    | isTrue h1, isTrue h2 => isTrue (by rw [h1, h2])
    | isFalse h1, _ => isFalse (by intro h; injection h; contradiction)
    | isTrue _, isFalse h2 => isFalse (by intro h; injection h; contradiction)

end

instance : DecidableEq PyVal := PyVal.decEq

/-- Python `x is None`, the identity test against the `None` singleton used by
the handlers. -/
def PyVal.is_none : PyVal → Bool
  | PyVal.none => true
  | _ => false

/-- Source line 4: `NULL_TOKEN = 'null'`, the sentinel token meaning
"logged out". -/
def NULL_TOKEN : PyVal := PyVal.str "null"

/-- The `dash.no_update` sentinel imported on line 1 and returned by handlers
that leave an output unchanged. -/
def no_update : PyVal := PyVal.noUpdate

/-- One call made to the authentication backend.  Handlers return, next to
their Python result, the list of such calls they performed, in order. -/
inductive AuthCall where
  | get_new_token (username password : PyVal)
  | get_token_status (api_token : PyVal)
  | invalidate_token (api_token : PyVal)
deriving DecidableEq

/-- The authentication backend (`auth_api`), an external collaborator.  The
fields give the value each fallible operation returns to the one call the
current handler makes; `invalidate_token` always returns `None` and is
tracked purely through the `AuthCall` trace. -/
structure AuthApi where
  get_new_token : PyVal → PyVal → PyVal
  get_token_status : PyVal → PyVal

/-- A view builder (`login_view_builder` / `content_view_builder`): an object
whose `build_layout()` method returns a Dash layout, embedded as the value it
returns. -/
structure ViewBuilder where
  build_layout : PyVal

/-- Source lines 7-38, class `_CallbackState`: wraps and unwraps callback
arguments and outputs around the token pair. -/
structure _CallbackState where
  CurrentApiToken : PyVal
  LastApiToken : PyVal
  Data : List PyVal

/-- Source lines 13-21, `_CallbackState.__init__(*data)`: saves the incoming
data and sets both tokens to the last argument.  `data[-1]` raises IndexError
on an empty argument tuple, embedded as `Option.none`. -/
def _CallbackState.init (data : List PyVal) : Option _CallbackState :=
  match data.getLast? with
  | Option.none => Option.none
  | Option.some last =>
    Option.some { CurrentApiToken := last, LastApiToken := last, Data := data }

/-- Source lines 23-28, `unwrap_input`: everything except the last argument
(`self.Data[0:-1]`). -/
def _CallbackState.unwrap_input (self : _CallbackState) : List PyVal :=
  self.Data.dropLast

/-- Source lines 30-38, `wrap_output`: the current and last tokens followed by
the elements of the (already normalised) output data, as one tuple. -/
def _CallbackState.wrap_output (self : _CallbackState) (data : List PyVal) : PyVal :=
  PyVal.tuple ([self.CurrentApiToken, self.LastApiToken] ++ data)

/-- Source lines 41-85, class `DashProtected`: the wrapper state relevant to
the handlers, namely the backend and the two view builders (the wrapped Dash
app itself only receives callback registrations and holds no data the
handlers read). -/
structure DashProtected where
  AuthApi : AuthApi
  LoginViewBuilder : ViewBuilder
  ContentViewBuilder : ViewBuilder

/-- Source lines 118-128, `_show_view(current_api_token, last_api_token,
user_info, existing_layout)`: returns the pair (children of `main`, children
of `user_info_display`) together with the (empty) backend call trace. -/
def DashProtected._show_view (self : DashProtected)
    (current_api_token last_api_token user_info existing_layout : PyVal) :
    (PyVal × PyVal) × List AuthCall :=
  if last_api_token = current_api_token then
    ((no_update, no_update), [])
  else if current_api_token = NULL_TOKEN then
    ((self.LoginViewBuilder.build_layout, NULL_TOKEN), [])
  else
    ((self.ContentViewBuilder.build_layout, user_info), [])

/-- Source lines 131-141, `_login(n, current_api_token, username, password)`:
returns (new current token, last token, user info) together with the backend
call trace. -/
def DashProtected._login (self : DashProtected)
    (n current_api_token username password : PyVal) :
    (PyVal × PyVal × PyVal) × List AuthCall :=
  let last_api_token := current_api_token
  let new_api_token := self.AuthApi.get_new_token username password
  let user_info := username
  if new_api_token.is_none then
    ((NULL_TOKEN, last_api_token, NULL_TOKEN), [AuthCall.get_new_token username password])
  else
    ((new_api_token, last_api_token, user_info), [AuthCall.get_new_token username password])

/-- Source lines 144-152, `_logout(n, current_api_token)`: returns (new
current token, last token, user info) together with the backend call trace. -/
def DashProtected._logout (self : DashProtected) (n current_api_token : PyVal) :
    (PyVal × PyVal × PyVal) × List AuthCall :=
  if n.is_none then
    ((no_update, no_update, no_update), [])
  else
    let last_api_token := current_api_token
    ((NULL_TOKEN, last_api_token, NULL_TOKEN), [AuthCall.invalidate_token current_api_token])

/-- Source lines 189-190 of `apply_func`: `if not isinstance(output_data,
tuple) or len(output_data) == 1: output_data = [ output_data ]`, followed by
the iteration `retval.extend(...)` performs over the result.  A tuple of
length other than one contributes its elements in order; anything else
(a non-tuple value, or a one-element tuple) contributes as a single
element. -/
def normalize_output_data : PyVal → List PyVal
  | PyVal.tuple xs => if xs.length = 1 then [PyVal.tuple xs] else xs
  | v => [v]

/-- Source lines 184-197, `apply_func(*func_args)`: the wrapper installed
around a protected callback `func` by `DashProtected.callback`.  Returns the
wrapped output tuple together with the backend call trace; `Option.none`
embeds the IndexError raised on an empty argument tuple. -/
def DashProtected.apply_func (self : DashProtected) (func : List PyVal → PyVal)
    (func_args : List PyVal) : Option (PyVal × List AuthCall) :=
  match _CallbackState.init func_args with
  | Option.none => Option.none
  | Option.some dpcs =>
    let unwrapped_args := dpcs.unwrap_input
    let output_data := normalize_output_data (func unwrapped_args)
    let checked := self.AuthApi.get_token_status dpcs.CurrentApiToken
    let trace := [AuthCall.get_token_status dpcs.CurrentApiToken]
    let dpcs := { dpcs with
      CurrentApiToken := if checked.is_none then NULL_TOKEN else checked }
    Option.some (dpcs.wrap_output output_data, trace)

/-- The three branches of the conditional in `_show_view`. -/
inductive ShowViewBranch where
  | no_update_branch
  | login_branch
  | content_branch
deriving DecidableEq

/-- Which branch of `_show_view` is selected, as a function of the token pair
alone. -/
def show_view_branch (current_api_token last_api_token : PyVal) : ShowViewBranch :=
  if last_api_token = current_api_token then ShowViewBranch.no_update_branch
  else if current_api_token = NULL_TOKEN then ShowViewBranch.login_branch
  else ShowViewBranch.content_branch

/-- What `_show_view` returns on each branch, as a function of the two view
builders and `user_info` alone: the backend and the existing layout play no
part. -/
def show_view_render (lvb cvb : ViewBuilder) (user_info : PyVal) :
    ShowViewBranch → PyVal × PyVal
  | ShowViewBranch.no_update_branch => (no_update, no_update)
  | ShowViewBranch.login_branch => (lvb.build_layout, NULL_TOKEN)
  | ShowViewBranch.content_branch => (cvb.build_layout, user_info)

/-- The token value a protected callback stores after the mid-flight check:
the backend's answer, with `None` replaced by `NULL_TOKEN`. -/
def checked_token (api : AuthApi) (api_token : PyVal) : PyVal :=
  if (api.get_token_status api_token).is_none then NULL_TOKEN
  else api.get_token_status api_token

/-- Reading of the specification phrase "f's outputs in order (f's single
non-tuple result contributed as one element)": the elements of a tuple result
in order, and any non-tuple result as a single element.  To be compared with
`normalize_output_data`, which is what the code does. -/
def spec_outputs_in_order : PyVal → List PyVal
  | PyVal.tuple xs => xs
  | v => [v]

/-- The first element of the wrapped tuple a protected callback returns (the
stored `current_api_token`), tested for Python `None`; `false` when the
callback raised instead of returning. -/
def first_wrapped_is_none : Option (PyVal × List AuthCall) → Bool
  | Option.some (PyVal.tuple (x :: _), _) => PyVal.is_none x
  | _ => false

/-- Helper: the `is_none` test succeeds exactly on the `None` value. -/
theorem PyVal.is_none_eq_false_iff (v : PyVal) :
    PyVal.is_none v = false ↔ v ≠ PyVal.none := by
  cases v <;> simp [PyVal.is_none]

/-- Helper: `_CallbackState.init` on data with a known last element. -/
theorem _CallbackState.init_of_getLast (data : List PyVal) (t : PyVal)
    (h : data.getLast? = Option.some t) :
    _CallbackState.init data
      = Option.some { CurrentApiToken := t, LastApiToken := t, Data := data } := by
  simp [_CallbackState.init, h]

/-- Helper: closed form of `apply_func` on a non-empty argument list whose
last element is `t`. -/
theorem DashProtected.apply_func_eq (self : DashProtected) (func : List PyVal → PyVal)
    (func_args : List PyVal) (t : PyVal) (h : func_args.getLast? = Option.some t) :
    self.apply_func func func_args
      = Option.some (PyVal.tuple (checked_token self.AuthApi t :: t ::
            normalize_output_data (func func_args.dropLast)),
          [AuthCall.get_token_status t]) := by
  unfold DashProtected.apply_func
  rw [_CallbackState.init_of_getLast func_args t h]
  simp [_CallbackState.unwrap_input, _CallbackState.wrap_output, checked_token]

/-- A backend that rejects every token check and every login attempt. -/
def rejectAllApi : AuthApi :=
  { get_new_token := fun _ _ => PyVal.none
    get_token_status := fun _ => PyVal.none }

/-- A backend that issues a fixed token on login and echoes back any checked
token unchanged. -/
def acceptApi : AuthApi :=
  { get_new_token := fun _ _ => PyVal.str "tok99"
    get_token_status := fun api_token => api_token }

/-- A backend whose check-token operation answers with a refreshed token
different from its input. -/
def refreshApi : AuthApi :=
  { get_new_token := fun _ _ => PyVal.str "tok99"
    get_token_status := fun _ => PyVal.str "refreshed" }

/-- A concrete login view builder. -/
def loginVB : ViewBuilder := { build_layout := PyVal.obj "login_layout" }

/-- A concrete content view builder. -/
def contentVB : ViewBuilder := { build_layout := PyVal.obj "content_layout" }

/-- A DashProtected instance over the rejecting backend. -/
def dpReject : DashProtected :=
  { AuthApi := rejectAllApi, LoginViewBuilder := loginVB, ContentViewBuilder := contentVB }

/-- A DashProtected instance over the accepting backend. -/
def dpAccept : DashProtected :=
  { AuthApi := acceptApi, LoginViewBuilder := loginVB, ContentViewBuilder := contentVB }

/-- A DashProtected instance over the refreshing backend. -/
def dpRefresh : DashProtected :=
  { AuthApi := refreshApi, LoginViewBuilder := loginVB, ContentViewBuilder := contentVB }

/-- A protected callback body returning a single non-tuple value. -/
def constFunc : List PyVal → PyVal := fun _ => PyVal.int 0

/-- A protected callback body returning a one-element tuple. -/
def oneTupleFunc : List PyVal → PyVal := fun _ => PyVal.tuple [PyVal.int 7]

/-- A protected callback body returning a pair. -/
def pairFunc : List PyVal → PyVal := fun _ => PyVal.tuple [PyVal.int 1, PyVal.int 2]

/-- C1 (amended): for a protected callback whose incoming token `t` is
rejected mid-flight by the backend (`get_token_status` returns `None`), the
wrapped output has `NULL_TOKEN` as its first element and the unchanged
incoming token `t` as its second; and when `t` is not already `NULL_TOKEN`,
the subsequent `_show_view` invocation on this pair selects the branch that
returns the login view. -/
theorem token_rejected_midflight_forces_login
    (self : DashProtected) (func : List PyVal → PyVal)
    (func_args : List PyVal) (t : PyVal)
    (hlast : func_args.getLast? = Option.some t)
    (hrej : self.AuthApi.get_token_status t = PyVal.none) :
    self.apply_func func func_args
      = Option.some (PyVal.tuple (NULL_TOKEN :: t ::
            normalize_output_data (func func_args.dropLast)),
          [AuthCall.get_token_status t])
    ∧ (t ≠ NULL_TOKEN →
      show_view_branch NULL_TOKEN t = ShowViewBranch.login_branch) := by
  constructor
  · rw [DashProtected.apply_func_eq self func func_args t hlast]
    simp [checked_token, hrej, PyVal.is_none]
  · intro hne
    simp [show_view_branch, hne]

/-- Witness for C1: the rejecting backend, a two-argument callback invocation
with incoming token "tokA". -/
theorem token_rejected_midflight_forces_login_witness :
    dpReject.apply_func constFunc [PyVal.int 0, PyVal.str "tokA"]
      = Option.some (PyVal.tuple [NULL_TOKEN, PyVal.str "tokA", PyVal.int 0],
          [AuthCall.get_token_status (PyVal.str "tokA")])
    ∧ show_view_branch NULL_TOKEN (PyVal.str "tokA") = ShowViewBranch.login_branch :=
  ⟨(token_rejected_midflight_forces_login dpReject constFunc [PyVal.int 0, PyVal.str "tokA"]
      (PyVal.str "tokA") rfl rfl).1,
   (token_rejected_midflight_forces_login dpReject constFunc [PyVal.int 0, PyVal.str "tokA"]
      (PyVal.str "tokA") rfl rfl).2 (by decide)⟩

/-- Counterexample to C1 as stated: when the incoming token is already
`NULL_TOKEN` and the backend rejects it, the wrapped output is
`(NULL_TOKEN, NULL_TOKEN, ...)`, and the subsequent `_show_view` invocation
takes the no-update branch, not the branch that returns the login view. -/
theorem token_rejected_when_already_null_cex :
    dpReject.AuthApi.get_token_status NULL_TOKEN = PyVal.none
    ∧ dpReject.apply_func constFunc [NULL_TOKEN]
      = Option.some (PyVal.tuple [NULL_TOKEN, NULL_TOKEN, PyVal.int 0],
          [AuthCall.get_token_status NULL_TOKEN])
    ∧ show_view_branch NULL_TOKEN NULL_TOKEN ≠ ShowViewBranch.login_branch
    ∧ dpReject._show_view NULL_TOKEN NULL_TOKEN (PyVal.str "Alice") (PyVal.obj "layout0")
      = ((no_update, no_update), []) :=
  ⟨rfl, rfl, by decide, rfl⟩

/-- C2: `_show_view` returns `(no_update, no_update)` when the token is
unchanged, and returns the content view together with `user_info` for any
non-null current token that the backend still considers valid and that
differs from the last token. -/
theorem show_view_unchanged_or_content
    (self : DashProtected)
    (current_api_token last_api_token user_info existing_layout : PyVal) :
    (last_api_token = current_api_token →
      self._show_view current_api_token last_api_token user_info existing_layout
        = ((no_update, no_update), []))
    ∧ (current_api_token ≠ NULL_TOKEN →
      self.AuthApi.get_token_status current_api_token ≠ PyVal.none →
      last_api_token ≠ current_api_token →
      self._show_view current_api_token last_api_token user_info existing_layout
        = ((self.ContentViewBuilder.build_layout, user_info), [])) := by
  constructor
  · intro h
    simp [DashProtected._show_view, h]
  · intro h1 _ h3
    simp [DashProtected._show_view, h1, h3]

/-- Witness for C2: an unchanged valid token gives no update; a fresh valid
token "tokA" arriving over a null last token shows the content view. -/
theorem show_view_unchanged_or_content_witness :
    dpAccept._show_view (PyVal.str "tokA") (PyVal.str "tokA")
        (PyVal.str "Alice") (PyVal.obj "layout0")
      = ((no_update, no_update), [])
    ∧ dpAccept._show_view (PyVal.str "tokA") NULL_TOKEN
        (PyVal.str "Alice") (PyVal.obj "layout0")
      = ((PyVal.obj "content_layout", PyVal.str "Alice"), []) :=
  ⟨(show_view_unchanged_or_content dpAccept (PyVal.str "tokA") (PyVal.str "tokA")
      (PyVal.str "Alice") (PyVal.obj "layout0")).1 rfl,
   (show_view_unchanged_or_content dpAccept (PyVal.str "tokA") NULL_TOKEN
      (PyVal.str "Alice") (PyVal.obj "layout0")).2 (by decide) (by decide) (by decide)⟩

/-- C3: with a null current token that differs from the last token,
`_show_view` returns the login view as the main children and `NULL_TOKEN` as
the user-info display. -/
theorem show_view_null_token_login
    (self : DashProtected)
    (current_api_token last_api_token user_info existing_layout : PyVal)
    (hnull : current_api_token = NULL_TOKEN)
    (hne : last_api_token ≠ current_api_token) :
    self._show_view current_api_token last_api_token user_info existing_layout
      = ((self.LoginViewBuilder.build_layout, NULL_TOKEN), []) := by
  subst hnull
  simp [DashProtected._show_view, hne]

/-- Witness for C3 at a concrete non-null last token. -/
theorem show_view_null_token_login_witness :
    dpAccept._show_view NULL_TOKEN (PyVal.str "tokA")
        (PyVal.str "Alice") (PyVal.obj "layout0")
      = ((PyVal.obj "login_layout", NULL_TOKEN), []) :=
  show_view_null_token_login dpAccept NULL_TOKEN (PyVal.str "tokA")
    (PyVal.str "Alice") (PyVal.obj "layout0") rfl (by decide)

/-- C4: `_login` returns `(new token, previous current token, username)` when
the backend issues a token, and `(NULL_TOKEN, previous current token,
NULL_TOKEN)` when the login attempt fails; in both cases it makes exactly the
one `get_new_token(username, password)` backend call. -/
theorem login_success_and_failure
    (self : DashProtected) (n current_api_token username password : PyVal) :
    (self.AuthApi.get_new_token username password ≠ PyVal.none →
      self._login n current_api_token username password
        = ((self.AuthApi.get_new_token username password, current_api_token, username),
            [AuthCall.get_new_token username password]))
    ∧ (self.AuthApi.get_new_token username password = PyVal.none →
      self._login n current_api_token username password
        = ((NULL_TOKEN, current_api_token, NULL_TOKEN),
            [AuthCall.get_new_token username password])) := by
  constructor
  · intro h
    simp [DashProtected._login, (PyVal.is_none_eq_false_iff _).mpr h]
  · intro h
    simp [DashProtected._login, h, PyVal.is_none]

/-- Witness for C4: a successful login over the accepting backend and a
failed one over the rejecting backend. -/
theorem login_success_and_failure_witness :
    dpAccept._login (PyVal.int 1) NULL_TOKEN (PyVal.str "Alice") (PyVal.str "pw")
      = ((PyVal.str "tok99", NULL_TOKEN, PyVal.str "Alice"),
          [AuthCall.get_new_token (PyVal.str "Alice") (PyVal.str "pw")])
    ∧ dpReject._login (PyVal.int 1) NULL_TOKEN (PyVal.str "Alice") (PyVal.str "bad")
      = ((NULL_TOKEN, NULL_TOKEN, NULL_TOKEN),
          [AuthCall.get_new_token (PyVal.str "Alice") (PyVal.str "bad")]) :=
  ⟨(login_success_and_failure dpAccept (PyVal.int 1) NULL_TOKEN
      (PyVal.str "Alice") (PyVal.str "pw")).1 (by decide),
   (login_success_and_failure dpReject (PyVal.int 1) NULL_TOKEN
      (PyVal.str "Alice") (PyVal.str "bad")).2 rfl⟩

/-- C5: `_logout` with a non-None click count calls the backend's
`invalidate_token` exactly once, with the current token as argument, and
returns `(NULL_TOKEN, current token, NULL_TOKEN)`. -/
theorem logout_invalidates_and_nulls
    (self : DashProtected) (n current_api_token : PyVal)
    (hn : n ≠ PyVal.none) :
    self._logout n current_api_token
      = ((NULL_TOKEN, current_api_token, NULL_TOKEN),
          [AuthCall.invalidate_token current_api_token]) := by
  simp [DashProtected._logout, (PyVal.is_none_eq_false_iff _).mpr hn]

/-- Witness for C5 with a click count of one and a null current token (the
claim covers `NULL_TOKEN` explicitly). -/
theorem logout_invalidates_and_nulls_witness :
    dpAccept._logout (PyVal.int 1) NULL_TOKEN
      = ((NULL_TOKEN, NULL_TOKEN, NULL_TOKEN),
          [AuthCall.invalidate_token NULL_TOKEN]) :=
  logout_invalidates_and_nulls dpAccept (PyVal.int 1) NULL_TOKEN (by decide)

/-- C6 (amended): a protected callback invokes the inner function with all
arguments except the trailing token, and the wrapped output is a tuple whose
first two elements are the post-check current token and the saved incoming
token, followed by the elements of the inner function's tuple result in order
when that tuple has length other than one; any other result (a non-tuple
value, or a one-element tuple) is contributed as a single element. -/
theorem protected_callback_wraps_tokens_and_outputs
    (self : DashProtected) (func : List PyVal → PyVal)
    (func_args : List PyVal) (t : PyVal)
    (h : func_args.getLast? = Option.some t) :
    self.apply_func func func_args
      = Option.some (PyVal.tuple (checked_token self.AuthApi t :: t ::
            normalize_output_data (func func_args.dropLast)),
          [AuthCall.get_token_status t]) :=
  DashProtected.apply_func_eq self func func_args t h

/-- Witness for C6: a two-output callback over the accepting backend; the
token is stripped from the inputs and the pair of outputs follows the token
pair. -/
theorem protected_callback_wraps_tokens_and_outputs_witness :
    dpAccept.apply_func pairFunc [PyVal.int 0, PyVal.str "tokA"]
      = Option.some (PyVal.tuple [PyVal.str "tokA", PyVal.str "tokA",
            PyVal.int 1, PyVal.int 2],
          [AuthCall.get_token_status (PyVal.str "tokA")]) :=
  protected_callback_wraps_tokens_and_outputs dpAccept pairFunc
    [PyVal.int 0, PyVal.str "tokA"] (PyVal.str "tokA") rfl

/-- Counterexample to C6 as stated: a callback returning the one-element
tuple `(7,)`.  The wrapped output carries that tuple itself as a single
element, which differs from carrying "f's outputs in order" (the element 7). -/
theorem protected_callback_one_tuple_cex :
    dpAccept.apply_func oneTupleFunc [PyVal.int 0, PyVal.str "tokA"]
      = Option.some (PyVal.tuple [PyVal.str "tokA", PyVal.str "tokA",
            PyVal.tuple [PyVal.int 7]],
          [AuthCall.get_token_status (PyVal.str "tokA")])
    ∧ PyVal.tuple [PyVal.str "tokA", PyVal.str "tokA", PyVal.tuple [PyVal.int 7]]
      ≠ PyVal.tuple (PyVal.str "tokA" :: PyVal.str "tokA" ::
          spec_outputs_in_order (oneTupleFunc [PyVal.int 0])) :=
  ⟨rfl, by decide⟩

/-- C7: when `get_token_status` answers with a non-None token (the same
token or a refreshed one), that exact token is the wrapped output's
current-token element. -/
theorem refreshed_token_propagated
    (self : DashProtected) (func : List PyVal → PyVal)
    (func_args : List PyVal) (t t2 : PyVal)
    (hlast : func_args.getLast? = Option.some t)
    (hstat : self.AuthApi.get_token_status t = t2)
    (hnn : t2 ≠ PyVal.none) :
    self.apply_func func func_args
      = Option.some (PyVal.tuple (t2 :: t ::
            normalize_output_data (func func_args.dropLast)),
          [AuthCall.get_token_status t]) := by
  rw [DashProtected.apply_func_eq self func func_args t hlast]
  simp [checked_token, hstat, (PyVal.is_none_eq_false_iff _).mpr hnn]

/-- Witness for C7: the refreshing backend turns incoming token "tokA" into
"refreshed", which lands in the first output slot. -/
theorem refreshed_token_propagated_witness :
    dpRefresh.apply_func constFunc [PyVal.obj "layout0", PyVal.str "tokA"]
      = Option.some (PyVal.tuple [PyVal.str "refreshed", PyVal.str "tokA",
            PyVal.int 0],
          [AuthCall.get_token_status (PyVal.str "tokA")]) :=
  refreshed_token_propagated dpRefresh constFunc
    [PyVal.obj "layout0", PyVal.str "tokA"]
    (PyVal.str "tokA") (PyVal.str "refreshed") rfl rfl (by decide)

/-- C8: `_show_view` factors through `show_view_branch`, a function of the
token pair alone, rendered by `show_view_render`, a function of the two view
builders, `user_info` and the branch alone: the branch taken is independent
of `user_info`, of the existing layout and of the authentication backend
held in `self`, and the backend call trace is empty. -/
theorem show_view_branch_determined_by_token_pair
    (self : DashProtected)
    (current_api_token last_api_token user_info existing_layout : PyVal) :
    self._show_view current_api_token last_api_token user_info existing_layout
      = (show_view_render self.LoginViewBuilder self.ContentViewBuilder user_info
          (show_view_branch current_api_token last_api_token),
        ([] : List AuthCall)) := by
  unfold DashProtected._show_view show_view_branch
  split_ifs <;> rfl

/-- C9: a spurious `_logout` invocation (`n` is `None`) returns `no_update`
for all three outputs and performs no backend call at all. -/
theorem logout_spurious_invocation_noop
    (self : DashProtected) (current_api_token : PyVal) :
    self._logout PyVal.none current_api_token
      = ((no_update, no_update, no_update), ([] : List AuthCall)) := rfl

/-- C10: no handler ever emits Python `None` as the stored current token:
the first output of `_login` and of `_logout`, and the first element of a
protected callback's wrapped output tuple, always fail the `is None` test. -/
theorem emitted_current_token_never_none (self : DashProtected) :
    (∀ n current_api_token username password,
      PyVal.is_none (self._login n current_api_token username password).1.1 = false)
    ∧ (∀ n current_api_token,
      PyVal.is_none (self._logout n current_api_token).1.1 = false)
    ∧ (∀ func func_args,
      first_wrapped_is_none (self.apply_func func func_args) = false) := by
  refine ⟨?_, ?_, ?_⟩
  · intro n current_api_token username password
    cases hv : self.AuthApi.get_new_token username password <;>
      simp [DashProtected._login, hv, NULL_TOKEN, PyVal.is_none]
  · intro n current_api_token
    cases n <;>
      simp [DashProtected._logout, NULL_TOKEN, no_update, PyVal.is_none]
  · intro func func_args
    unfold DashProtected.apply_func
    cases hinit : _CallbackState.init func_args with
    | none => simp [first_wrapped_is_none]
    | some dpcs =>
      cases hv : self.AuthApi.get_token_status dpcs.CurrentApiToken <;>
        simp [hv, _CallbackState.wrap_output, first_wrapped_is_none,
          NULL_TOKEN, PyVal.is_none]
